import Mathlib

/-!
Verification development for the git-bob issue-resolution action pipeline.

The definitions below are a shallow embedding of the two Python source files
of the repository:

* `src/src/git_bob/_ai_github_utilities.py` — in particular the orchestrator
  `solve_github_issue` (action sequencing, per-action isolation, protected-path
  guard, final reporting) and the file-mutation executor `create_or_modify_file`
  (attempt loop, notebook-output reconciliation, sandboxed notebook execution,
  artifact discovery).
* `src/actions/manager.py` — the entry script prologue (API-key guard, argument
  parsing, task dispatch).

External collaborators (the repository host, the text-generation oracle, and the
helper module `git_bob._utilities`, which is not part of the source tree here)
are passed in as parameters; two environment helpers whose code is not in the
tree are modelled from the spec and documented as such.  Machine-level effects
(environment variables, the working directory, the on-disk file set and the
writes pushed to the working branch) are threaded as explicit state.
-/

namespace GitBob

/-! ## Python string primitives used by the source -/

/-- Python `needle in haystack` for strings: substring containment test. -/
def pyContains (haystack needle : String) : Bool :=
  (haystack.data.tails).any (fun t => needle.data.isPrefixOf t)

/-- Python `s.endswith(suffix)`. -/
def pyEndsWith (s suffix : String) : Bool :=
  suffix.data.isSuffixOf s.data

/-- Python `s.strip(c)`: remove leading and trailing occurrences of the
character `c`. -/
def pyStrip (s : String) (c : Char) : String :=
  ⟨((s.data.dropWhile (fun x => x = c)).reverse.dropWhile (fun x => x = c)).reverse⟩

/-- Python `os.path.dirname` (posixpath): everything up to the last `/`,
with trailing slashes stripped unless the head is all slashes. -/
def dirname (s : String) : String :=
  let r := s.data
  let head := ((r.reverse).dropWhile (fun x => x ≠ '/')).reverse
  if head ≠ [] ∧ head.any (fun x => x ≠ '/') then
    ⟨(head.reverse.dropWhile (fun x => x = '/')).reverse⟩
  else
    ⟨head⟩

/-- Python `os.chdir(p)` applied to the current working directory `cwd`:
an absolute path replaces it, a relative one is joined onto it. -/
def pyChdir (cwd p : String) : String :=
  if p.data.head? = some '/' then p else cwd ++ "/" ++ p

/-! ## Action records

`text_to_json` hands `solve_github_issue` a list of JSON objects; each carries
an `action` tag and tag-specific string fields.  Missing keys are `none`. -/

structure Instruction where
  action : Option String := none
  filename : Option String := none
  old_filename : Option String := none
  new_filename : Option String := none
  source_url : Option String := none
  target_filename : Option String := none
deriving DecidableEq

/-- A Python exception as it reaches the orchestrator's `except` clause:
its `str(...)` message and the traceback text `traceback.format_exc()`
produces for it (already put through `remove_ansi_escape_sequences`,
which lives in the external helper module). -/
structure PyExn where
  message : String
  trace : String
deriving DecidableEq

/-- The repository-host mutations `solve_github_issue` dispatches to. -/
inductive RepoOp where
  | createOrModifyFile (filename : String)
  | downloadToRepository (sourceUrl targetFilename : String)
  | renameFileInRepository (oldFilename newFilename : String)
  | deleteFileFromRepository (filename : String)
  | copyFileInRepository (oldFilename newFilename : String)
deriving DecidableEq

/-- Accumulator state of the orchestrator's action loop: the `errors` and
`commit_messages` lists of the source, plus the trace of repository
operations the loop has dispatched (in dispatch order). -/
structure SolveState where
  errors : List String := []
  commitMessages : List String := []
  attempted : List RepoOp := []
deriving DecidableEq

/-- External collaborators of `solve_github_issue`, bundled: the repository
host, the text-generation oracle and the helper functions imported from
`git_bob._utilities` and `git_bob._github_utilities`. -/
structure SolveCollab where
  /-- Outcome of one dispatched repository operation: the value
  `create_or_modify_file` returns for `createOrModifyFile`, or the raised
  exception.  (For the four plain host operations the returned string is
  unused by the caller.) -/
  runOp : RepoOp → Except PyExn String
  /-- Traceback text produced when reading a missing dict key raises
  `KeyError`. -/
  keyTrace : String → String
  /-- Python `repr` of the instruction dict, as interpolated into the
  error summary (`f"Error during {instruction}: ..."`). -/
  showInst : Instruction → String
  promptFunction : String → String
  textToJson : String → List Instruction
  splitContentAndSummary : String → String × String
  cleanOutput : String → String
  redactText : String → String
  /-- `setup_ai_remark() + "\n\n"`. -/
  remark : String
  /-- The module-level `SYSTEM_PROMPT`, read from the process environment
  when the module loads. -/
  systemPrompt : String
  /-- `modify_discussion(get_conversation_on_issue(...))`. -/
  discussion : String
  /-- `list_repository_files(repository)`. -/
  allFiles : List String
  /-- `repo.get_branch(repo.default_branch).name`. -/
  defaultBranch : String
  /-- The fresh branch name `create_branch` returns. -/
  newBranchName : String
  /-- `get_diff_of_branches(...)`. -/
  diffs : String
  /-- Outcome of `send_pull_request`: `ok` or the `GithubException` message. -/
  sendPullRequestResult : Except String Unit

/-! ## Protected-path guard (lines 466-471 of the source)

The source iterates over the four filename keys; for each key present whose
value contains `".github"` it appends an error.  The `continue` in that loop
continues the inner key loop, so it produces error records only — it does not
leave the instruction's iteration of the outer action loop. -/

def filenameKeys : List String :=
  ["filename", "new_filename", "old_filename", "target_filename"]

/-- Python `instruction.get(key)` on the parsed record. -/
def fieldOf (inst : Instruction) (key : String) : Option String :=
  if key = "filename" then inst.filename
  else if key = "new_filename" then inst.new_filename
  else if key = "old_filename" then inst.old_filename
  else if key = "target_filename" then inst.target_filename
  else if key = "source_url" then inst.source_url
  else none

def protectedPathErrors (inst : Instruction) : List String :=
  filenameKeys.filterMap fun key =>
    match fieldOf inst key with
    | some filename =>
        if pyContains filename ".github" then
          some ("Error processing " ++ filename ++ ": Modifying workflow files is not allowed.")
        else none
    | none => none

/-! ## The dispatch `try` block (lines 473-497) -/

/-- Python `instruction[key]`: the value, or a raised `KeyError`. -/
def requireField (C : SolveCollab) (inst : Instruction) (key : String) :
    Except PyExn String :=
  match fieldOf inst key with
  | some v => .ok v
  | none => .error { message := "'" ++ key ++ "'", trace := C.keyTrace key }

/-- The body of the `try` block for one instruction: reads the required
fields (a missing one raises `KeyError`), dispatches the repository
operation, and on success yields the commit message the source appends.
An unrecognized action tag (the `execute` tag among them) matches no
branch of the `if`/`elif` chain and falls through with no effect.
Returns the extended dispatch trace together with the outcome. -/
def dispatchTry (C : SolveCollab) (inst : Instruction) (attempted0 : List RepoOp) :
    List RepoOp × Except PyExn (Option String) :=
  if inst.action = some "create" ∨ inst.action = some "modify" then
    match requireField C inst "filename" with
    | .error e => (attempted0, .error e)
    | .ok f =>
        let filename := pyStrip f '/'
        let op := RepoOp.createOrModifyFile filename
        match C.runOp op with
        | .error e => (attempted0 ++ [op], .error e)
        | .ok message => (attempted0 ++ [op], .ok (some (filename ++ ":" ++ message)))
  else if inst.action = some "download" then
    match requireField C inst "source_url" with
    | .error e => (attempted0, .error e)
    | .ok sourceUrl =>
        match requireField C inst "target_filename" with
        | .error e => (attempted0, .error e)
        | .ok t =>
            let targetFilename := pyStrip t '/'
            let op := RepoOp.downloadToRepository sourceUrl targetFilename
            match C.runOp op with
            | .error e => (attempted0 ++ [op], .error e)
            | .ok _ =>
                (attempted0 ++ [op],
                 .ok (some ("Downloaded " ++ sourceUrl ++ ", saved as " ++ targetFilename ++ ".")))
  else if inst.action = some "rename" then
    match requireField C inst "old_filename" with
    | .error e => (attempted0, .error e)
    | .ok o =>
        match requireField C inst "new_filename" with
        | .error e => (attempted0, .error e)
        | .ok n =>
            let oldFilename := pyStrip o '/'
            let newFilename := pyStrip n '/'
            let op := RepoOp.renameFileInRepository oldFilename newFilename
            match C.runOp op with
            | .error e => (attempted0 ++ [op], .error e)
            | .ok _ =>
                (attempted0 ++ [op],
                 .ok (some ("Renamed " ++ oldFilename ++ " to " ++ newFilename ++ ".")))
  else if inst.action = some "delete" then
    match requireField C inst "filename" with
    | .error e => (attempted0, .error e)
    | .ok f =>
        let filename := pyStrip f '/'
        let op := RepoOp.deleteFileFromRepository filename
        match C.runOp op with
        | .error e => (attempted0 ++ [op], .error e)
        | .ok _ => (attempted0 ++ [op], .ok (some ("Deleted " ++ filename ++ ".")))
  else if inst.action = some "copy" then
    match requireField C inst "old_filename" with
    | .error e => (attempted0, .error e)
    | .ok o =>
        match requireField C inst "new_filename" with
        | .error e => (attempted0, .error e)
        | .ok n =>
            let oldFilename := pyStrip o '/'
            let newFilename := pyStrip n '/'
            let op := RepoOp.copyFileInRepository oldFilename newFilename
            match C.runOp op with
            | .error e => (attempted0 ++ [op], .error e)
            | .ok _ =>
                (attempted0 ++ [op],
                 .ok (some ("Copied " ++ oldFilename ++ " to " ++ newFilename ++ ".")))
  else (attempted0, .ok none)

/-- The `except` clause's summary (lines 498-505): the exception formatted
together with its indented stack trace in a `<details>` block. -/
def errorDetails (C : SolveCollab) (inst : Instruction) (e : PyExn) : String :=
  let traces := "    " ++ (e.trace.replace "\n" "\n    ")
  "<details>\n    <summary>Error during " ++ C.showInst inst ++ ": " ++ e.message ++
    "</summary>\n    <pre>" ++ traces ++ "</pre>\n</details>\n            "

/-- One iteration of the orchestrator's action loop (lines 463-505):
record protected-path errors, then run the `try` block; a raised exception
is caught, formatted with its stack trace and appended to `errors`. -/
def processInstruction (C : SolveCollab) (s : SolveState) (inst : Instruction) :
    SolveState :=
  let s1 : SolveState := { s with errors := s.errors ++ protectedPathErrors inst }
  match dispatchTry C inst s1.attempted with
  | (att, .ok (some m)) =>
      { s1 with attempted := att, commitMessages := s1.commitMessages ++ [m] }
  | (att, .ok none) => { s1 with attempted := att }
  | (att, .error e) =>
      { s1 with attempted := att, errors := s1.errors ++ [errorDetails C inst e] }

/-- The whole action loop. -/
def processInstructions (C : SolveCollab) (s : SolveState) (l : List Instruction) :
    SolveState :=
  l.foldl (processInstruction C) s

/-! ## Sequencing (line 458)

`sorted(instructions, key=lambda x: x.get('action') != 'download')` — Python's
`sorted` is a stable sort; the key is `False` (0) exactly on download actions.
We embed it as a stable merge sort under the order the boolean key induces. -/

/-- The sort key of line 458: `x.get('action') != 'download'`. -/
def sortKey (inst : Instruction) : Bool :=
  decide (inst.action ≠ some "download")

def sortKeyLe (a b : Instruction) : Bool :=
  !(sortKey a) || sortKey b

/-- Line 458: downloads first, stably. -/
def sortInstructions (l : List Instruction) : List Instruction :=
  l.mergeSort sortKeyLe

/-- An action is a download action. -/
def isDownload (inst : Instruction) : Bool :=
  decide (inst.action = some "download")

/-! ## The oracle prompts of `solve_github_issue` (interpolated f-strings) -/

/-- The planning prompt (lines 417-442). -/
def solveActionsPrompt (repository : String) (issue : Nat) (discussion allFiles : String) :
    String :=
  "\nGiven a list of files in the repository " ++ repository ++
  " and a github issues description (# " ++ toString issue ++
  "), determine which files need to be modified, renamed or deleted to solve the issue.\n\n## Github Issue #" ++
  toString issue ++ " Discussion\n\n" ++ discussion ++
  "\n\n## All files in the repository\n\n" ++ allFiles ++
  "\n\n## Your task\nDecide which of these files need to be modified, created, downloaded, renamed, copied or deleted to solve #" ++
  toString issue ++ " ? \n" ++
  "Downloads are necessary, if there is a url in the discussion and the linked file is needed in the proposed code.\n" ++
  "If the user asks for executing a notebook, consider this as modification.\n" ++
  "Keep the list of actions minimal.\n" ++
  "Response format:\n" ++
  "- For modifications: \x7b\"action\": \"modify\", \"filename\": \"...\"\x7d\n" ++
  "- For creations: \x7b\"action\": \"create\", \"filename\": \"...\"\x7d\n" ++
  "- For downloads: \x7b\"action\": \"download\", \"source_url\": \"...\", \"target_filename\": \"...\"\x7d\n" ++
  "- For renames: \x7b\"action\": \"rename\", \"old_filename\": \"...\", \"new_filename\": \"...\"\x7d\n" ++
  "- For copies: \x7b\"action\": \"copy\", \"old_filename\": \"...\", \"new_filename\": \"...\"\x7d\n" ++
  "- For executions: \x7b\"action\": \"execute\", \"filename\": \"...\"\x7d\n" ++
  "- For deletions: \x7b\"action\": \"delete\", \"filename\": \"...\"\x7d\n" ++
  "Respond with the actions as JSON list.\n"

/-- `link_files_task` (lines 523-528). -/
def linkFilesTask (repository branchName : String) : String :=
  "\nIf there are image files created, use the markdown syntax ![](url) to display them.\n" ++
  "If there other new files created, add markdown links to them. \n" ++
  "For file and image urls, prefix them with the repository name and the branch name: https://github.com/" ++
  repository ++ "/blob/" ++ branchName ++ "/\n" ++
  "For image urls, append \"?raw=true\" by the end of the url to display the image directly. Again, you MUST use the ![]() markdown syntax for image files.\n"

/-- The pull-request summary prompt (lines 532-558). -/
def prSummaryPrompt (systemPrompt repository : String) (issue : Nat)
    (discussion commitMessagesPrompt diffsPrompt lft : String) : String :=
  "\n" ++ systemPrompt ++
  "\nGiven a list of commit messages and a git diff, summarize the changes you made in the files.\nYou modified the repository " ++
  repository ++ " to solve the issue #" ++ toString issue ++
  ", which is also summarized below.\n\n## Github Issue #" ++ toString issue ++
  " Discussion\n\n" ++ discussion ++
  "\n\n## Commit messages\nYou committed these changes to these files\n\n" ++
  commitMessagesPrompt ++
  "\n\n## Git diffs\nThe following changes were made in the files:\n\n" ++ diffsPrompt ++
  "\n\n## Your task\n\nSummarize the changes above to a one paragraph line Github pull-request message. \n" ++
  lft ++
  "\n\nAfterwards, summarize the summary in a single line, which will become the title of the pull-request.\nDo not add headline or any other formatting. Just respond with the paragraph and the title in a new line below.\n"

/-- The in-place comment summary prompt (lines 573-587). -/
def inPlaceSummaryPrompt (systemPrompt commitMessagesPrompt lft : String) : String :=
  "\n" ++ systemPrompt ++
  "\nGiven a list of commit messages, summarize the changes you made.\n\n## Commit messages\nYou committed these changes to these files\n\n" ++
  commitMessagesPrompt ++
  "\n\n## Your task\nSummarize the changes above to a one paragraph.\n" ++ lft ++
  "\n\nDo not add headline or any other formatting. Just respond with the paragraphe below.\n"

/-! ## Final reporting (lines 507-589) -/

/-- `branch_name != base_branch` in Python, where `base_branch` may be `None`. -/
def pyNeBranch (branchName : String) (baseBranch : Option String) : Bool :=
  match baseBranch with
  | none => true
  | some b => decide (branchName ≠ b)

/-- What the reporting phase sends to the repository host. -/
inductive ReportOutcome where
  | pullRequest (title description : String)
  | prFailureComment (text : String)
  | inPlaceComment (text : String)
deriving DecidableEq

def ReportOutcome.isPullRequest : ReportOutcome → Bool
  | .pullRequest _ _ => true
  | _ => false

/-- The error block appended to the final report (lines 507-510). -/
def errorMessagesOf (errors : List String) : String :=
  if 0 < errors.length then
    "\n\nDuring solving this task, the following errors occurred:\n\n* " ++
      String.intercalate "\n* " errors ++ "\n"
  else ""

/-- Reporting phase of `solve_github_issue` (lines 514-589): summarize the
branch diff; open a pull request when the working branch differs from the
base branch, degrade to a comment when the host rejects it, and post a
plain comment when continuing in place. -/
def reportingPhase (C : SolveCollab) (repository : String) (issue : Nat)
    (branchName : String) (baseBranch : Option String)
    (commitMessages : List String) (errorMessages : String) : ReportOutcome :=
  let diffsPrompt := C.diffs
  let commitMessagesPrompt := "* " ++ String.intercalate "\n* " commitMessages
  let remark := C.remark
  let lft := linkFilesTask repository branchName
  if pyNeBranch branchName baseBranch then
    let pullRequestSummary :=
      C.promptFunction
        (prSummaryPrompt (C.systemPrompt) repository issue C.discussion
          commitMessagesPrompt diffsPrompt lft)
    let ps := C.splitContentAndSummary pullRequestSummary
    let pullRequestDescription := ps.1
    let pullRequestTitle := ps.2
    let fullReport := remark ++ C.cleanOutput pullRequestDescription ++ errorMessages
    match C.sendPullRequestResult with
    | .ok _ =>
        .pullRequest (C.redactText pullRequestTitle)
          (C.redactText fullReport ++ "\n\ncloses #" ++ toString issue)
    | .error e =>
        .prFailureComment
          (remark ++ "Error creating pull-request: " ++ e ++ errorMessages)
  else
    let modificationSummary :=
      C.promptFunction (inPlaceSummaryPrompt (C.systemPrompt) commitMessagesPrompt lft)
    .inPlaceComment
      (remark ++ C.redactText (C.cleanOutput modificationSummary) ++
        C.redactText errorMessages)

/-! ## The orchestrator `solve_github_issue` (lines 378-589) -/

structure SolveResult where
  branchName : String
  finalState : SolveState
  errorMessages : String
  report : ReportOutcome
deriving DecidableEq

def solve_github_issue (C : SolveCollab) (repository : String) (issue : Nat)
    (baseBranch : Option String) : SolveResult :=
  let discussion := C.discussion
  let allFiles := "* " ++ String.intercalate "\n* " C.allFiles
  let modifications :=
    C.promptFunction (solveActionsPrompt repository issue discussion allFiles)
  let instructions := C.textToJson modifications
  let branchName :=
    if baseBranch = none ∨ baseBranch = some C.defaultBranch then C.newBranchName
    else baseBranch.getD ""
  let sortedInstructions := sortInstructions instructions
  let st := processInstructions C {} sortedInstructions
  let errorMessages := errorMessagesOf st.errors
  let report := reportingPhase C repository issue branchName baseBranch
    st.commitMessages errorMessages
  { branchName := branchName, finalState := st, errorMessages := errorMessages,
    report := report }

/-! ## `create_or_modify_file` (lines 208-375)

Machine state threaded through the executor: the working directory, the
process environment variables, the readable on-disk file set (path ↦ bytes;
path resolution against the working directory is abstracted into this map,
since the source passes the artifact paths verbatim to `os.path.exists` and
`open`), and the writes pushed to the working branch. -/

structure RepoWrite where
  filename : String
  content : String
  message : String
deriving DecidableEq

structure SandboxState where
  cwd : String
  env : List (String × String)
  disk : List (String × String)
  writes : List RepoWrite
deriving DecidableEq

def lookupDisk (disk : List (String × String)) (path : String) : Option String :=
  (disk.find? (fun p => p.1 = path)).map (fun p => p.2)

/-- Modelled from the spec: `save_and_clear_environment` lives in
`git_bob._utilities`, which is not under `src/`.  Per section 4.4 and the
`EnvironmentSnapshot` data model, it captures a full copy of the process
environment variables (and clears them for the sandboxed run), returning
the snapshot together with the cleared environment. -/
def save_and_clear_environment (env : List (String × String)) :
    List (String × String) × List (String × String) :=
  (env, [])

/-- Modelled from the spec: `restore_environment` lives in
`git_bob._utilities`, which is not under `src/`.  Per section 4.4 it
restores the process environment variables to the given snapshot,
regardless of what the sandboxed run left behind. -/
def restore_environment (saved _current : List (String × String)) :
    List (String × String) :=
  saved

/-- External collaborators of `create_or_modify_file`. -/
structure ComfCollab where
  /-- `check_if_file_exists(repository, branch_name, filename)`. -/
  checkIfFileExists : Bool
  /-- `decode_file(get_file_in_repository(...))` when the file exists. -/
  existingFile : String
  /-- `erase_outputs_of_code_cells` (external helper module). -/
  eraseOutputs : String → String
  /-- `restore_outputs_of_code_cells(new_content, original)` (external helper
  module): the restored content, or the raised `ValueError`'s message. -/
  restoreOutputs : String → String → Except String String
  /-- `execute_notebook` (external helper module): returns
  `(new_content, error_message)` or raises. -/
  executeNotebook : String → Except PyExn (String × Option String)
  promptFunction : String → String
  /-- `split_content_and_summary(response)` (external helper module). -/
  splitContentAndSummary : String → String × String
  /-- `text_to_json` (external helper module) applied to the artifact list
  response: the parsed filename list, or the raised exception. -/
  textToJson : String → Except PyExn (List String)
  redactText : String → String
  systemPrompt : String

/-- `format_specific_instructions` (lines 241-245). -/
def comfFormatSpecificInstructions (filename : String) : String :=
  if pyEndsWith filename ".py" then
    " When writing new functions, use numpy-style docstrings."
  else if pyEndsWith filename ".ipynb" then
    " In the notebook file, write short code snippets in code cells and avoid long code blocks. Make sure everything is done step-by-step and we can inspect intermediate results. Add explanatory markdown cells in front of every code cell. The notebook has NO cell outputs! Make sure that there is code that saves results such as plots, images or dataframes, e.g. as .png or .csv files. Numpy images have to be converted to np.uint8 before saving as .png. Plots must be saved to disk before the cell ends or it is shown. The notebook must be executable from top to bottom without errors. Return the notebook in JSON format!"
  else ""

/-- `file_content_instruction` for an existing file (lines 254-268). -/
def comfModifyInstruction (issue : Nat) (filename fsi fileContent : String) : String :=
  "\nModify the file \"" ++ filename ++ "\" to solve the issue #" ++ toString issue ++
  ". " ++ fsi ++
  "\nIf the discussion is long, some stuff might be already done. In that case, focus on what was said at the very end in the discussion.\nKeep your modifications absolutely minimal.\n\nThat's the file \"" ++
  filename ++ "\" content you will find in the file:\n```\n" ++ fileContent ++
  "\n```\n\n## Your task\nModify content of the file \"" ++ filename ++
  "\" to solve the issue above.\nKeep your modifications absolutely minimal.\nReturn the entire new file content, do not shorten it.\n"

/-- `file_content_instruction` for a new file (lines 271-277). -/
def comfCreateInstruction (issue : Nat) (filename fsi : String) : String :=
  "\nCreate the file \"" ++ filename ++ "\" to solve the issue #" ++ toString issue ++
  ". " ++ fsi ++
  "\n\n## Your task\nGenerate content for the file \"" ++ filename ++
  "\" to solve the issue above.\nKeep it short.\n"

/-- `original_ipynb_file_content`: set only when the target exists and is a
notebook (lines 247-253). -/
def comfOriginalIpynb (C : ComfCollab) (filename : String) : Option String :=
  if C.checkIfFileExists ∧ pyEndsWith filename ".ipynb" then some C.existingFile
  else none

def comfFileContentInstruction (C : ComfCollab) (issue : Nat) (filename : String) :
    String :=
  let fsi := comfFormatSpecificInstructions filename
  if C.checkIfFileExists then
    let fileContent :=
      if pyEndsWith filename ".ipynb" then C.eraseOutputs C.existingFile
      else C.existingFile
    comfModifyInstruction issue filename fsi fileContent
  else comfCreateInstruction issue filename fsi

/-- The generation prompt (lines 279-293). -/
def comfPrompt (C : ComfCollab) (issue : Nat) (filename issueSummary : String) :
    String :=
  "\n" ++ C.systemPrompt ++
  "\nGiven a github issue summary (#" ++ toString issue ++
  ") and optionally file content (filename " ++ filename ++
  "), modify the file content or create the file content to solve the issue.\n\n## Issue " ++
  toString issue ++ " Summary\n\n" ++ issueSummary ++ "\n\n## File " ++ filename ++
  " content\n\n" ++ comfFileContentInstruction C issue filename ++
  "\n\nRespond ONLY the content of the file and afterwards a single line summarizing the changes you made (without mentioning the issue).\n"

/-- `(new_content, commit_message)` as parsed from the oracle's response
(lines 295-297). -/
def comfGeneratedContent (C : ComfCollab) (issue : Nat)
    (filename issueSummary : String) : String × String :=
  C.splitContentAndSummary (C.promptFunction (comfPrompt C issue filename issueSummary))

/-- Notebook-output reconciliation (lines 301-314): for a pre-existing
notebook, try to restore the old outputs onto the new content; a raised
`ValueError` leaves the new content as generated and forces execution.
For a newly generated notebook, erase outputs and force execution.
Returns the content to carry on with and the `do_execute_notebook` flag. -/
def reconcileNotebookContent (C : ComfCollab) (originalIpynb : Option String)
    (filename newContent : String) : String × Bool :=
  match originalIpynb with
  | some orig =>
      match C.restoreOutputs newContent orig with
      | .ok restored => (restored, false)
      | .error _ => (newContent, true)
  | none =>
      if pyEndsWith filename ".ipynb" then (C.eraseOutputs newContent, true)
      else (newContent, false)

/-- The artifact-enumeration prompt (lines 338-346). -/
def artifactListPrompt (filename notExecutedNotebook : String) : String :=
  "\nExtract a list of filenames including path from the following jupyter notebook. \nThe path should be relative from the repository root, not from the notebooks's postion. \nThe position of the notebook is " ++
  filename ++
  ".\nReturn the list as a JSON list and nothing else.\n\nNotebook:\n" ++
  notExecutedNotebook ++ "\n            "

/-- One step of the artifact loop (lines 349-355): an enumerated file that
exists on disk is recorded as created and written to the branch; one that
does not exist is skipped. -/
def artifactStep (disk : List (String × String)) (pathWithoutFilename : String)
    (acc : List String × List RepoWrite) (file : String) :
    List String × List RepoWrite :=
  match lookupDisk disk file with
  | some contents =>
      (acc.1 ++ [file],
       acc.2 ++ [{ filename := file, content := contents,
                   message := "Adding " ++ pathWithoutFilename ++ "/" ++ file ++
                     " created by notebook" : RepoWrite }])
  | none => acc

/-- The notebook-execution block (lines 317-364): enter the notebook's
directory, snapshot and clear the environment, run the notebook, enumerate
and commit artifacts on success, and restore the working directory and the
environment in the `finally` clause on every exit path.  Returns the final
machine state together with either `(new_content, created_files)` or the
`ValueError` the `except` clause re-raises. -/
def executeNotebookBlock (C : ComfCollab) (filename newContent : String)
    (s : SandboxState) : SandboxState × Except PyExn (String × List String) :=
  let currentDir := s.cwd
  let pathWithoutFilename := dirname filename
  let s1 :=
    if 0 < pathWithoutFilename.length then
      { s with cwd := pyChdir s.cwd pathWithoutFilename }
    else s
  let saved := (save_and_clear_environment s1.env).1
  let s2 := { s1 with env := (save_and_clear_environment s1.env).2 }
  let notExecutedNotebook := newContent
  match C.executeNotebook newContent with
  | .error e =>
      ({ s2 with cwd := currentDir, env := restore_environment saved s2.env },
       .error { message := "Error during notebook execution: " ++ e.message,
                trace := e.trace })
  | .ok (newContent2, errorMessage) =>
      let s3 := { s2 with env := restore_environment saved s2.env }
      match errorMessage with
      | some _ =>
          ({ s3 with cwd := currentDir, env := restore_environment saved s3.env },
           .ok (newContent2, []))
      | none =>
          let listOfFilesText :=
            C.promptFunction (artifactListPrompt filename notExecutedNotebook)
          match C.textToJson listOfFilesText with
          | .error e =>
              ({ s3 with cwd := currentDir, env := restore_environment saved s3.env },
               .error { message := "Error during notebook execution: " ++ e.message,
                        trace := e.trace })
          | .ok listOfFiles =>
              let r := listOfFiles.foldl (artifactStep s3.disk pathWithoutFilename) ([], [])
              ({ s3 with cwd := currentDir,
                         env := restore_environment saved s3.env,
                         writes := s3.writes ++ r.2 },
               .ok (newContent2, r.1))

/-- The outcome of one completed iteration of the attempt loop.  No
statement of the loop body (lines 237-371) assigns `an_error_happened`
after its initialization to `False`, so the flag a completed iteration
tests is the recorded one. -/
structure AttemptResult where
  newContent : String
  commitMessage : String
  createdFiles : List String
  anErrorHappened : Bool
deriving DecidableEq

/-- Tail of the attempt body after reconciliation (lines 316-368): execute
the notebook when the flag demands it, append the primary filename to
`created_files`, redact the content. -/
def comfFinishAttempt (C : ComfCollab) (filename commitMessage newContent : String)
    (doExec : Bool) (s : SandboxState) : SandboxState × Except PyExn AttemptResult :=
  if doExec then
    match executeNotebookBlock C filename newContent s with
    | (s', .error e) => (s', .error e)
    | (s', .ok (nc3, createdFiles)) =>
        (s', .ok { newContent := C.redactText nc3, commitMessage := commitMessage,
                   createdFiles := createdFiles ++ [filename],
                   anErrorHappened := false })
  else
    (s, .ok { newContent := C.redactText newContent, commitMessage := commitMessage,
              createdFiles := [filename], anErrorHappened := false })

/-- One iteration of the attempt loop (lines 236-371, without the final
`break` test). -/
def createOrModifyAttemptBody (C : ComfCollab) (issue : Nat)
    (filename issueSummary : String) (s : SandboxState) :
    SandboxState × Except PyExn AttemptResult :=
  let g := comfGeneratedContent C issue filename issueSummary
  let rc := reconcileNotebookContent C (comfOriginalIpynb C filename) filename g.1
  comfFinishAttempt C filename g.2 rc.1 rc.2 s

/-- The attempt loop `for attempt in range(number_of_attempts)` with its
`if not an_error_happened: break` (lines 236-371): returns the machine
state, the values bound after the loop (`none` when no iteration ran, as
with `number_of_attempts = 0`, where the source would hit a `NameError`),
or the exception that aborted it, and the number of iterations executed. -/
def createOrModifyAttemptLoop (C : ComfCollab) (issue : Nat)
    (filename issueSummary : String) (s : SandboxState) :
    Nat → SandboxState × Except PyExn (Option AttemptResult) × Nat
  | 0 => (s, .ok none, 0)
  | n + 1 =>
      match createOrModifyAttemptBody C issue filename issueSummary s with
      | (s', .error e) => (s', .error e, 1)
      | (s', .ok r) =>
          if r.anErrorHappened = false then (s', .ok (some r), 1)
          else
            let rest := createOrModifyAttemptLoop C issue filename issueSummary s' n
            (rest.1,
             (match rest.2.1 with
              | .ok none => .ok (some r)
              | other => other),
             rest.2.2 + 1)

/-- `create_or_modify_file` (lines 208-375): run the attempt loop, commit
the final content with a trailing newline, and return the summary string. -/
def create_or_modify_file (C : ComfCollab) (issue : Nat)
    (filename issueSummary : String) (numberOfAttempts : Nat) (s : SandboxState) :
    SandboxState × Except PyExn String :=
  match createOrModifyAttemptLoop C issue filename issueSummary s numberOfAttempts with
  | (s', .error e, _) => (s', .error e)
  | (s', .ok none, _) =>
      (s', .error { message := "name 'new_content' is not defined", trace := "" })
  | (s', .ok (some r), _) =>
      let s2 := { s' with writes := s'.writes ++
        [{ filename := filename, content := r.newContent ++ "\n",
           message := C.redactText r.commitMessage : RepoWrite }] }
      (s2, .ok (r.commitMessage ++ "\n\nCreated files:\n* " ++
        String.intercalate "\n* " r.createdFiles))

/-! ## The manager entry script (`src/actions/manager.py`)

The prologue reads the API key, runs its quote check, parses the positional
arguments and decides whether to dispatch the `response-pull-request` task.
The first uncaught exception aborts the script; `Except` models that. -/

inductive ManagerError where
  /-- `TypeError`: subscripting `None` at the quote check `api_key[0]`. -/
  | typeErrorNoneSubscript
  /-- `IndexError`: `api_key[0]` on an empty string. -/
  | indexErrorString
  /-- `IndexError`: `sys.argv[i]` out of range. -/
  | indexErrorArgv (i : Nat)
  /-- `ValueError`: `int(...)` on a non-numeric argument. -/
  | valueErrorInt (s : String)
deriving DecidableEq

structure ManagerRun where
  task : String
  repository : Option String
  issue : Option Int
  /-- The script enters the `response-pull-request` branch. -/
  dispatchedResponsePullRequest : Bool
deriving DecidableEq

/-- Python `int(s)`. -/
def pyInt (s : String) : Except ManagerError Int :=
  match s.toInt? with
  | some n => .ok n
  | none => .error (.valueErrorInt s)

/-- The manager script's prologue (lines 7-27 of `src/actions/manager.py`),
in source order: read `ANTHROPIC_API_KEY`; the guarded `print` at line 13;
then, unconditionally and outside that guard, the quote check
`api_key[0] == '"'` at line 15 (a `TypeError` when the key is unset, an
`IndexError` when it is empty — either branch of the comparison only
prints); then the positional arguments `task`, `repository`, `issue`
(lines 23-25) and the task dispatch test (line 27). -/
def manager_script (env : String → Option String) (argv : List String) :
    Except ManagerError ManagerRun :=
  let apiKey := env "ANTHROPIC_API_KEY"
  match apiKey with
  | none => .error .typeErrorNoneSubscript
  | some s =>
      match s.data with
      | [] => .error .indexErrorString
      | _ :: _ =>
          match argv.get? 1 with
          | none => .error (.indexErrorArgv 1)
          | some task =>
              let repository := if 2 < argv.length then argv.get? 2 else none
              match (if h : 3 < argv.length then
                       (pyInt (argv.get ⟨3, h⟩)).map some
                     else .ok none) with
              | .error e => .error e
              | .ok issue =>
                  .ok { task := task, repository := repository, issue := issue,
                        dispatchedResponsePullRequest :=
                          decide (task = "response-pull-request") }

/-! # Shared lemmas -/

lemma sortKey_eq_not_isDownload (a : Instruction) : sortKey a = !(isDownload a) := by
  simp [sortKey, isDownload, decide_not]

lemma sortKeyLe_trans (a b c : Instruction) :
    sortKeyLe a b = true → sortKeyLe b c = true → sortKeyLe a c = true := by
  simp only [sortKeyLe]
  cases sortKey a <;> cases sortKey b <;> cases sortKey c <;> simp

lemma sortKeyLe_total (a b : Instruction) :
    (sortKeyLe a b || sortKeyLe b a) = true := by
  simp only [sortKeyLe]
  cases sortKey a <;> cases sortKey b <;> simp

/-- Stability of line 458's sort: filtering by any predicate all of whose
satisfying elements compare `≤` pairwise is unchanged by the sort. -/
lemma filter_sortInstructions (P : Instruction → Bool)
    (hP : ∀ a b, P a = true → P b = true → sortKeyLe a b = true)
    (l : List Instruction) :
    (sortInstructions l).filter P = l.filter P := by
  have hpw : (l.filter P).Pairwise (fun a b => sortKeyLe a b = true) :=
    List.pairwise_of_forall_mem_list (fun a ha b hb =>
      hP a b (List.of_mem_filter ha) (List.of_mem_filter hb))
  have hsub : (l.filter P).Sublist (sortInstructions l) :=
    List.sublist_mergeSort sortKeyLe_trans sortKeyLe_total hpw (List.filter_sublist l)
  have hsub2 : ((l.filter P).filter P).Sublist ((sortInstructions l).filter P) :=
    List.Sublist.filter P hsub
  rw [List.filter_eq_self.mpr (fun a ha => List.of_mem_filter ha)] at hsub2
  have hperm : ((sortInstructions l).filter P).Perm (l.filter P) :=
    List.Perm.filter P (List.mergeSort_perm l sortKeyLe)
  exact (hsub2.eq_of_length hperm.length_eq.symm).symm

/-! # Claims -/

/-- C10: when `ANTHROPIC_API_KEY` is unset, the manager entry script raises
an uncaught exception at the quote check `api_key[0]` (subscripting `None`),
before the task argument is read or any task dispatched: the quote check sits
outside the preceding `is not None` guard. -/
theorem manager_script_unset_api_key_raises (env : String → Option String)
    (h : env "ANTHROPIC_API_KEY" = none) (argv : List String) :
    manager_script env argv = .error .typeErrorNoneSubscript := by
  simp [manager_script, h]

/-- Witness for C10: with the key unset and an argument vector so short that
reading the task would itself raise `IndexError`, the result is still the
`None`-subscript `TypeError` — the quote check fires first. -/
theorem manager_script_unset_api_key_raises_witness :
    manager_script (fun _ => none) ["manager.py"] = .error .typeErrorNoneSubscript :=
  manager_script_unset_api_key_raises (fun _ => none) rfl ["manager.py"]

/-- C3: for every planned action list with at least one download and one
non-download action, the sequenced list places every download strictly before
every non-download action, and filtering the sequenced list to either group
returns exactly that group's subsequence of the input list (relative order
within each group is preserved). -/
theorem sortInstructions_downloads_first (l : List Instruction)
    (hdl : ∃ a ∈ l, isDownload a = true) (hnd : ∃ b ∈ l, isDownload b = false) :
    (∀ i j : Fin (sortInstructions l).length,
        isDownload ((sortInstructions l).get i) = true →
        isDownload ((sortInstructions l).get j) = false → (i : ℕ) < (j : ℕ)) ∧
      (sortInstructions l).filter isDownload = l.filter isDownload ∧
      (sortInstructions l).filter (fun a => !(isDownload a)) =
        l.filter (fun a => !(isDownload a)) := by
  refine ⟨?_, ?_, ?_⟩
  · intro i j hi hj
    have hpw : (sortInstructions l).Pairwise (fun a b => sortKeyLe a b = true) :=
      List.sorted_mergeSort sortKeyLe_trans sortKeyLe_total l
    rcases lt_trichotomy (i : ℕ) (j : ℕ) with h | h | h
    · exact h
    · exfalso
      have : i = j := Fin.ext h
      rw [this, hj] at hi
      exact Bool.false_ne_true hi
    · exfalso
      have hle := (List.pairwise_iff_get.mp hpw) j i h
      rw [sortKeyLe, sortKey_eq_not_isDownload, sortKey_eq_not_isDownload, hi, hj]
        at hle
      simp at hle
  · exact filter_sortInstructions isDownload
      (fun a b ha hb => by
        simp [sortKeyLe, sortKey_eq_not_isDownload, ha, hb]) l
  · exact filter_sortInstructions (fun a => !(isDownload a))
      (fun a b ha hb => by
        simp only [Bool.not_eq_true'] at ha hb
        simp [sortKeyLe, sortKey_eq_not_isDownload, ha, hb]) l

/-- Sample actions for witnesses. -/
def sampleCreate : Instruction :=
  { action := some "create", filename := some "report.py" }

def sampleDownload : Instruction :=
  { action := some "download", source_url := some "https://example.com/data.csv",
    target_filename := some "data/data.csv" }

/-- Witness for C3: a two-action batch with one non-download before one
download satisfies the hypotheses, and the download group of the sequenced
list is exactly the input's download group. -/
theorem sortInstructions_downloads_first_witness :
    (sortInstructions [sampleCreate, sampleDownload]).filter isDownload =
      [sampleCreate, sampleDownload].filter isDownload :=
  (sortInstructions_downloads_first [sampleCreate, sampleDownload]
    ⟨sampleDownload, by decide, by decide⟩
    ⟨sampleCreate, by decide, by decide⟩).2.1

/-- A concrete collaborator bundle: three planned `create` actions, of which
the second one's repository operation raises; everything else succeeds. -/
def batchInstructions : List Instruction :=
  [{ action := some "create", filename := some "a.py" },
   { action := some "create", filename := some "b.py" },
   { action := some "create", filename := some "c.py" }]

def batchFailInst : Instruction := { action := some "create", filename := some "b.py" }

def batchCollab : SolveCollab :=
  { runOp := fun op =>
      match op with
      | .createOrModifyFile f =>
          if f = "b.py" then .error { message := "boom", trace := "tb" }
          else .ok "done"
      | _ => .ok "done",
    keyTrace := fun _ => "",
    showInst := fun _ => "instruction",
    promptFunction := fun _ => "response",
    textToJson := fun _ => batchInstructions,
    splitContentAndSummary := fun r => (r, "title"),
    cleanOutput := fun s => s,
    redactText := fun s => s,
    remark := "remark\n\n",
    systemPrompt := "system",
    discussion := "discussion",
    allFiles := ["a.py"],
    defaultBranch := "main",
    newBranchName := "git-bob-mod-xyz",
    diffs := "diff",
    sendPullRequestResult := .ok () }

/-- C1: per-action failure isolation in `solve_github_issue` — (i) the action
loop processes a list one element at a time, so the elements after any given
action are still processed whatever that action did; (ii) when the dispatched
operation for an action raises, the exception is caught, formatted together
with its stack trace by `errorDetails`, and appended to the error list, with
the commit-message list untouched; (iii) concretely, a batch of three actions
whose second one raises yields two success records and one failure record, and
the orchestrator still produces its Reporting-phase outcome (here a pull
request). -/
theorem solve_github_issue_per_action_isolation :
    (∀ (C : SolveCollab) (s : SolveState) (pre : List Instruction)
        (inst : Instruction) (post : List Instruction),
        processInstructions C s (pre ++ inst :: post) =
          processInstructions C
            (processInstruction C (processInstructions C s pre) inst) post) ∧
    (∀ (C : SolveCollab) (s : SolveState) (inst : Instruction)
        (att : List RepoOp) (e : PyExn),
        dispatchTry C inst s.attempted = (att, .error e) →
        processInstruction C s inst =
          { errors := s.errors ++ protectedPathErrors inst ++ [errorDetails C inst e],
            commitMessages := s.commitMessages, attempted := att }) ∧
    ((solve_github_issue batchCollab "user/repo" 1 none).finalState.commitMessages.length = 2 ∧
     (solve_github_issue batchCollab "user/repo" 1 none).finalState.errors.length = 1 ∧
     (solve_github_issue batchCollab "user/repo" 1 none).report.isPullRequest = true) := by
  refine ⟨?_, ?_, ?_⟩
  · intro C s pre inst post
    simp [processInstructions, List.foldl_append]
  · intro C s inst att e h
    unfold processInstruction
    dsimp only
    rw [h]
  · have hsort : sortInstructions batchInstructions = batchInstructions := by
      simp [sortInstructions, batchInstructions, List.mergeSort, sortKeyLe, sortKey]
    have hres : ∀ x, batchCollab.textToJson x = batchInstructions := fun _ => rfl
    refine ⟨?_, ?_, ?_⟩ <;> simp only [solve_github_issue, hres, hsort] <;> decide

/-- Witness for C1: the failing second action of the concrete batch is
processed into exactly one formatted error record, no commit message, and
its dispatched operation on the trace. -/
theorem solve_github_issue_per_action_isolation_witness :
    processInstruction batchCollab {} batchFailInst =
      { errors := ([] : List String) ++ protectedPathErrors batchFailInst ++
          [errorDetails batchCollab batchFailInst { message := "boom", trace := "tb" }],
        commitMessages := [], attempted := [RepoOp.createOrModifyFile "b.py"] } :=
  solve_github_issue_per_action_isolation.2.1 batchCollab {} batchFailInst
    [RepoOp.createOrModifyFile "b.py"] { message := "boom", trace := "tb" } rfl

/-- The protected-path failing input of C2. -/
def protectedInst : Instruction :=
  { action := some "delete", filename := some ".github/workflows/ci.yml" }

/-- C2 (the code bug): an action whose filename lies under `.github` gets an
error recorded by the guard, but — because the guard's `continue` continues
the inner key loop rather than the outer action loop — the action is still
dispatched: the repository mutation is executed and its commit message
recorded.  The claim's "no repository mutation is executed for that action"
fails at this input. -/
theorem protected_path_error_recorded_but_still_executed :
    processInstruction batchCollab {} protectedInst =
      { errors := ["Error processing .github/workflows/ci.yml: Modifying workflow files is not allowed."],
        commitMessages := ["Deleted .github/workflows/ci.yml."],
        attempted := [RepoOp.deleteFileFromRepository ".github/workflows/ci.yml"] } := by
  decide

/-- The structurally valid `execute` action of C7. -/
def executeInst : Instruction :=
  { action := some "execute", filename := some "analysis.ipynb" }

/-- Counterexample for C7: a structurally valid `execute` action is silently
skipped — the dispatch chain has no `execute` branch, so processing it leaves
the state unchanged: no repository operation dispatched, no commit message,
and no error recorded. -/
theorem execute_action_silently_skipped :
    processInstruction batchCollab {} executeInst = ({} : SolveState) ∧
      (processInstruction batchCollab {} executeInst).attempted = [] := by
  decide

/-- C7 as amended: every structurally valid action of the six dispatched
kinds (create, modify, rename, copy, delete, download) is dispatched to its
corresponding repository operation — even when that operation then raises —
while a structurally valid `execute` action is silently skipped: the only
effect of processing it is the protected-path guard's error records. -/
theorem dispatch_covers_six_kinds :
    (∀ (C : SolveCollab) (s : SolveState) (inst : Instruction) (f : String),
        (inst.action = some "create" ∨ inst.action = some "modify") →
        inst.filename = some f →
        (processInstruction C s inst).attempted =
          s.attempted ++ [RepoOp.createOrModifyFile (pyStrip f '/')]) ∧
    (∀ (C : SolveCollab) (s : SolveState) (inst : Instruction) (u t : String),
        inst.action = some "download" → inst.source_url = some u →
        inst.target_filename = some t →
        (processInstruction C s inst).attempted =
          s.attempted ++ [RepoOp.downloadToRepository u (pyStrip t '/')]) ∧
    (∀ (C : SolveCollab) (s : SolveState) (inst : Instruction) (o n : String),
        inst.action = some "rename" → inst.old_filename = some o →
        inst.new_filename = some n →
        (processInstruction C s inst).attempted =
          s.attempted ++ [RepoOp.renameFileInRepository (pyStrip o '/') (pyStrip n '/')]) ∧
    (∀ (C : SolveCollab) (s : SolveState) (inst : Instruction) (f : String),
        inst.action = some "delete" → inst.filename = some f →
        (processInstruction C s inst).attempted =
          s.attempted ++ [RepoOp.deleteFileFromRepository (pyStrip f '/')]) ∧
    (∀ (C : SolveCollab) (s : SolveState) (inst : Instruction) (o n : String),
        inst.action = some "copy" → inst.old_filename = some o →
        inst.new_filename = some n →
        (processInstruction C s inst).attempted =
          s.attempted ++ [RepoOp.copyFileInRepository (pyStrip o '/') (pyStrip n '/')]) ∧
    (∀ (C : SolveCollab) (s : SolveState) (inst : Instruction),
        inst.action = some "execute" →
        processInstruction C s inst =
          { s with errors := s.errors ++ protectedPathErrors inst }) := by
  refine ⟨?_, ?_, ?_, ?_, ?_, ?_⟩
  · intro C s inst f ha hf
    have hfo : fieldOf inst "filename" = some f := by simp [fieldOf, hf]
    rcases hop : C.runOp (RepoOp.createOrModifyFile (pyStrip f '/')) with e | m <;>
      rcases ha with ha | ha <;>
        simp [processInstruction, dispatchTry, requireField, ha, hfo, hop]
  · intro C s inst u t ha hu ht
    have hsu : fieldOf inst "source_url" = some u := by simp [fieldOf, hu]
    have htf : fieldOf inst "target_filename" = some t := by simp [fieldOf, ht]
    rcases hop : C.runOp (RepoOp.downloadToRepository u (pyStrip t '/')) with e | m <;>
      simp [processInstruction, dispatchTry, requireField, ha, hsu, htf, hop]
  · intro C s inst o n ha ho hn
    have hof : fieldOf inst "old_filename" = some o := by simp [fieldOf, ho]
    have hnf : fieldOf inst "new_filename" = some n := by simp [fieldOf, hn]
    rcases hop : C.runOp (RepoOp.renameFileInRepository (pyStrip o '/') (pyStrip n '/'))
        with e | m <;>
      simp [processInstruction, dispatchTry, requireField, ha, hof, hnf, hop]
  · intro C s inst f ha hf
    have hfo : fieldOf inst "filename" = some f := by simp [fieldOf, hf]
    rcases hop : C.runOp (RepoOp.deleteFileFromRepository (pyStrip f '/')) with e | m <;>
      simp [processInstruction, dispatchTry, requireField, ha, hfo, hop]
  · intro C s inst o n ha ho hn
    have hof : fieldOf inst "old_filename" = some o := by simp [fieldOf, ho]
    have hnf : fieldOf inst "new_filename" = some n := by simp [fieldOf, hn]
    rcases hop : C.runOp (RepoOp.copyFileInRepository (pyStrip o '/') (pyStrip n '/'))
        with e | m <;>
      simp [processInstruction, dispatchTry, requireField, ha, hof, hnf, hop]
  · intro C s inst ha
    simp [processInstruction, dispatchTry, ha]

/-- Witness for C7's amended theorem: a concrete download action is
dispatched to `download_to_repository`. -/
theorem dispatch_covers_six_kinds_witness :
    (processInstruction batchCollab {} sampleDownload).attempted =
      [RepoOp.downloadToRepository "https://example.com/data.csv"
        (pyStrip "data/data.csv" '/')] :=
  dispatch_covers_six_kinds.2.1 batchCollab {} sampleDownload
    "https://example.com/data.csv" "data/data.csv" rfl rfl rfl

/-- The pull-request `(description, title)` pair of lines 532-560. -/
def prReportParts (C : SolveCollab) (repository : String) (issue : Nat)
    (branchName : String) (commits : List String) : String × String :=
  C.splitContentAndSummary
    (C.promptFunction
      (prSummaryPrompt C.systemPrompt repository issue C.discussion
        ("* " ++ String.intercalate "\n* " commits) C.diffs
        (linkFilesTask repository branchName)))

/-- The in-place modification summary of lines 573-587. -/
def inPlaceReport (C : SolveCollab) (repository branchName : String)
    (commits : List String) : String :=
  C.promptFunction
    (inPlaceSummaryPrompt C.systemPrompt ("* " ++ String.intercalate "\n* " commits)
      (linkFilesTask repository branchName))

/-- C8: the final reporting policy.  When the working branch differs from the
base branch and the host accepts, a pull request is opened whose description
is the redaction of remark + generated summary + accumulated error block,
followed by a closing reference to the issue; when the host rejects it
(`GithubException`), the same error block is posted in a plain comment
instead; when the working branch equals the base branch, no pull request is
attempted and a plain comment carries the summary and the redacted error
block.  In each outcome the accumulated error block is part of the final
report. -/
theorem reportingPhase_policy (C : SolveCollab) (repository : String) (issue : Nat)
    (branchName : String) (baseBranch : Option String) (commits : List String)
    (errMsgs : String) :
    (∀ u : Unit, pyNeBranch branchName baseBranch = true →
        C.sendPullRequestResult = .ok u →
        reportingPhase C repository issue branchName baseBranch commits errMsgs =
          .pullRequest
            (C.redactText (prReportParts C repository issue branchName commits).2)
            (C.redactText
              (C.remark ++
                C.cleanOutput (prReportParts C repository issue branchName commits).1 ++
                errMsgs) ++ "\n\ncloses #" ++ toString issue)) ∧
    (∀ e : String, pyNeBranch branchName baseBranch = true →
        C.sendPullRequestResult = .error e →
        reportingPhase C repository issue branchName baseBranch commits errMsgs =
          .prFailureComment
            (C.remark ++ "Error creating pull-request: " ++ e ++ errMsgs)) ∧
    (pyNeBranch branchName baseBranch = false →
        reportingPhase C repository issue branchName baseBranch commits errMsgs =
          .inPlaceComment
            (C.remark ++
              C.redactText (C.cleanOutput (inPlaceReport C repository branchName commits)) ++
              C.redactText errMsgs)) := by
  refine ⟨?_, ?_, ?_⟩
  · intro u hne hok
    simp [reportingPhase, hne, hok, prReportParts]
  · intro e hne herr
    simp [reportingPhase, hne, herr]
  · intro heq
    simp [reportingPhase, heq, inPlaceReport]

/-- Witness for C8: with the concrete collaborators, a fresh working branch
and an accepting host, the reporting phase opens the pull request carrying
the redacted report and the closing reference. -/
theorem reportingPhase_policy_witness :
    reportingPhase batchCollab "user/repo" 1 "git-bob-mod-xyz" none ["m"] "errs" =
      .pullRequest
        (batchCollab.redactText (prReportParts batchCollab "user/repo" 1 "git-bob-mod-xyz" ["m"]).2)
        (batchCollab.redactText
          (batchCollab.remark ++
            batchCollab.cleanOutput (prReportParts batchCollab "user/repo" 1 "git-bob-mod-xyz" ["m"]).1 ++
            "errs") ++ "\n\ncloses #" ++ toString 1) :=
  (reportingPhase_policy batchCollab "user/repo" 1 "git-bob-mod-xyz" none ["m"] "errs").1
    () rfl rfl

/-! ## Executor lemmas -/

/-- Evaluation of the artifact loop: created files are exactly the enumerated
files present on disk, each producing one branch write with its on-disk
bytes; absent files contribute nothing. -/
lemma artifact_foldl (disk : List (String × String)) (pwf : String)
    (files : List String) (acc : List String × List RepoWrite) :
    files.foldl (artifactStep disk pwf) acc =
      (acc.1 ++ files.filter (fun f => (lookupDisk disk f).isSome),
       acc.2 ++ (files.filter (fun f => (lookupDisk disk f).isSome)).map (fun f =>
         { filename := f, content := (lookupDisk disk f).getD "",
           message := "Adding " ++ pwf ++ "/" ++ f ++ " created by notebook" })) := by
  induction files generalizing acc with
  | nil => simp
  | cons f fs ih =>
      rcases h : lookupDisk disk f with _ | c <;>
        simp [List.foldl_cons, artifactStep, h, ih]

/-- Every exit path of the execution block restores the environment to the
pre-execution snapshot and the working directory to the pre-`chdir` one. -/
lemma executeNotebookBlock_state (C : ComfCollab) (filename newContent : String)
    (s : SandboxState) :
    ((executeNotebookBlock C filename newContent s).1).env = s.env ∧
      ((executeNotebookBlock C filename newContent s).1).cwd = s.cwd := by
  unfold executeNotebookBlock
  rcases hex : C.executeNotebook newContent with e | ⟨nc2, em⟩
  · constructor <;> by_cases hdir : 0 < (dirname filename).length <;>
      simp [hex, hdir, restore_environment, save_and_clear_environment]
  · rcases em with _ | msg
    · rcases htj : C.textToJson (C.promptFunction (artifactListPrompt filename newContent))
          with e2 | files <;>
        constructor <;> by_cases hdir : 0 < (dirname filename).length <;>
          simp [hex, htj, hdir, restore_environment, save_and_clear_environment]
    · constructor <;> by_cases hdir : 0 < (dirname filename).length <;>
        simp [hex, hdir, restore_environment, save_and_clear_environment]

/-- A completed iteration of the attempt loop always reports
`an_error_happened = False`: no statement of the loop body assigns the flag
after its initialization. -/
lemma attemptBody_flag_false (C : ComfCollab) (issue : Nat)
    (filename issueSummary : String) (s sx : SandboxState) (r : AttemptResult)
    (h : createOrModifyAttemptBody C issue filename issueSummary s = (sx, .ok r)) :
    r.anErrorHappened = false := by
  unfold createOrModifyAttemptBody comfFinishAttempt at h
  by_cases hd : (reconcileNotebookContent C (comfOriginalIpynb C filename) filename
      (comfGeneratedContent C issue filename issueSummary).1).2
  · simp only [hd, if_true] at h
    rcases hb : executeNotebookBlock C filename
        (reconcileNotebookContent C (comfOriginalIpynb C filename) filename
          (comfGeneratedContent C issue filename issueSummary).1).1 s with ⟨s2, r2⟩
    rw [hb] at h
    rcases r2 with e | ⟨nc3, cf⟩
    · simp at h
    · simp only [Prod.mk.injEq, Except.ok.injEq] at h
      rw [← h.2]
  · simp only [hd, if_false, Bool.false_eq_true] at h
    simp only [Prod.mk.injEq, Except.ok.injEq] at h
    rw [← h.2]

/-- C5: state restoration of the execution sandbox inside
`create_or_modify_file` — on every exit path of the notebook-execution block
(success, execution error, or an error during post-processing such as
artifact discovery), the process environment variables equal the snapshot
taken immediately before execution and the working directory equals the one
current before the notebook's containing directory was entered; hence so
does every completed or aborted attempt-loop iteration. -/
theorem sandbox_environment_restoration :
    (∀ (C : ComfCollab) (filename newContent : String) (s : SandboxState),
        ((executeNotebookBlock C filename newContent s).1).env = s.env ∧
        ((executeNotebookBlock C filename newContent s).1).cwd = s.cwd) ∧
    (∀ (C : ComfCollab) (issue : Nat) (filename issueSummary : String)
        (s : SandboxState),
        ((createOrModifyAttemptBody C issue filename issueSummary s).1).env = s.env ∧
        ((createOrModifyAttemptBody C issue filename issueSummary s).1).cwd = s.cwd) := by
  refine ⟨executeNotebookBlock_state, ?_⟩
  intro C issue filename issueSummary s
  unfold createOrModifyAttemptBody comfFinishAttempt
  by_cases hd : (reconcileNotebookContent C (comfOriginalIpynb C filename) filename
      (comfGeneratedContent C issue filename issueSummary).1).2
  · simp only [hd, if_true]
    have hblk := executeNotebookBlock_state C filename
      (reconcileNotebookContent C (comfOriginalIpynb C filename) filename
        (comfGeneratedContent C issue filename issueSummary).1).1 s
    rcases hb : executeNotebookBlock C filename
        (reconcileNotebookContent C (comfOriginalIpynb C filename) filename
          (comfGeneratedContent C issue filename issueSummary).1).1 s with ⟨s2, r2⟩
    rw [hb] at hblk
    rcases r2 with e | ⟨nc3, cf⟩ <;> simpa using hblk
  · simp [hd]

/-- C4: the retry trigger of `create_or_modify_file` is dead code — a
completed iteration of the attempt loop always carries
`an_error_happened = False`, so for every positive attempt budget the loop's
result equals the one-attempt result and exactly one iteration runs: the
retry continuation is never taken. -/
theorem create_or_modify_file_retry_dead_code :
    (∀ (C : ComfCollab) (issue : Nat) (filename issueSummary : String)
        (s sx : SandboxState) (r : AttemptResult),
        createOrModifyAttemptBody C issue filename issueSummary s = (sx, .ok r) →
        r.anErrorHappened = false) ∧
    (∀ (C : ComfCollab) (issue : Nat) (filename issueSummary : String)
        (s : SandboxState) (n : Nat), 1 ≤ n →
        createOrModifyAttemptLoop C issue filename issueSummary s n =
          createOrModifyAttemptLoop C issue filename issueSummary s 1 ∧
        (createOrModifyAttemptLoop C issue filename issueSummary s n).2.2 = 1) := by
  refine ⟨attemptBody_flag_false, ?_⟩
  intro C issue filename issueSummary s n hn
  rcases n with _ | m
  · exact absurd hn (by simp)
  · unfold createOrModifyAttemptLoop
    rcases hb : createOrModifyAttemptBody C issue filename issueSummary s with ⟨s2, r⟩
    rcases r with e | r
    · simp [hb]
    · have hfl : r.anErrorHappened = false :=
        attemptBody_flag_false C issue filename issueSummary s s2 r hb
      simp [hb, hfl]

/-- Concrete executor collaborators for witnesses. -/
def comfSample : ComfCollab :=
  { checkIfFileExists := false,
    existingFile := "",
    eraseOutputs := fun s => s,
    restoreOutputs := fun c _ => .ok c,
    executeNotebook := fun c => .ok (c, none),
    promptFunction := fun _ => "content",
    splitContentAndSummary := fun r => (r, "summary"),
    textToJson := fun _ => .ok [],
    redactText := fun s => s,
    systemPrompt := "system" }

def sState0 : SandboxState :=
  { cwd := "/work/repo", env := [("PATH", "/usr/bin")], disk := [], writes := [] }

/-- Witness for C4: with an attempt budget of 3, exactly one iteration runs. -/
theorem create_or_modify_file_retry_dead_code_witness :
    (createOrModifyAttemptLoop comfSample 1 "report.py" "summary" sState0 3).2.2 = 1 :=
  (create_or_modify_file_retry_dead_code.2 comfSample 1 "report.py" "summary" sState0 3
    (by decide)).2

/-- Executor collaborators whose output restoration always raises. -/
def comfRestoreFails : ComfCollab :=
  { comfSample with
    checkIfFileExists := true,
    existingFile := "orig",
    eraseOutputs := fun _ => "ERASED",
    restoreOutputs := fun _ _ => .error "no exact match" }

/-- Counterexample for C6: when restoring the old outputs onto the newly
generated notebook content raises, the code forces execution but does NOT
strip the outputs from the new content — the content carried into execution
is the generated content itself, not the erased one the claim describes. -/
theorem reconciliation_failure_not_stripped :
    reconcileNotebookContent comfRestoreFails (some "orig") "nb.ipynb" "generated" =
        ("generated", true) ∧
      comfRestoreFails.eraseOutputs "generated" = "ERASED" ∧
      ("generated" : String) ≠ "ERASED" :=
  ⟨rfl, rfl, by decide⟩

/-- C6 as amended: when `create_or_modify_file` modifies an existing notebook
and restoring the old cell outputs onto the newly generated content raises,
full execution of the entire new document is forced on the content as
generated (outputs are not stripped from it); when restoration succeeds, the
restored content is kept and no execution is triggered (the machine state is
untouched). -/
theorem notebook_reconciliation_fallback :
    (∀ (C : ComfCollab) (orig filename newContent e : String),
        C.restoreOutputs newContent orig = .error e →
        reconcileNotebookContent C (some orig) filename newContent =
          (newContent, true)) ∧
    (∀ (C : ComfCollab) (orig filename newContent c : String),
        C.restoreOutputs newContent orig = .ok c →
        reconcileNotebookContent C (some orig) filename newContent = (c, false)) ∧
    (∀ (C : ComfCollab) (issue : Nat) (filename issueSummary : String)
        (s : SandboxState) (orig : String),
        comfOriginalIpynb C filename = some orig →
        (∀ e, C.restoreOutputs (comfGeneratedContent C issue filename issueSummary).1
            orig = .error e →
          createOrModifyAttemptBody C issue filename issueSummary s =
            comfFinishAttempt C filename
              (comfGeneratedContent C issue filename issueSummary).2
              (comfGeneratedContent C issue filename issueSummary).1 true s) ∧
        (∀ c, C.restoreOutputs (comfGeneratedContent C issue filename issueSummary).1
            orig = .ok c →
          createOrModifyAttemptBody C issue filename issueSummary s =
            (s, .ok { newContent := C.redactText c,
                      commitMessage := (comfGeneratedContent C issue filename issueSummary).2,
                      createdFiles := [filename], anErrorHappened := false }))) := by
  refine ⟨?_, ?_, ?_⟩
  · intro C orig filename newContent e h
    simp [reconcileNotebookContent, h]
  · intro C orig filename newContent c h
    simp [reconcileNotebookContent, h]
  · intro C issue filename issueSummary s orig horig
    constructor
    · intro e h
      unfold createOrModifyAttemptBody
      rw [horig]
      simp [reconcileNotebookContent, h]
    · intro c h
      unfold createOrModifyAttemptBody
      rw [horig]
      simp [reconcileNotebookContent, h, comfFinishAttempt]

/-- Witness for C6's amended theorem: with the always-failing restorer, the
attempt body hands the generated content, unstripped, to the execution
continuation. -/
theorem notebook_reconciliation_fallback_witness :
    createOrModifyAttemptBody comfRestoreFails 1 "nb.ipynb" "summary" sState0 =
      comfFinishAttempt comfRestoreFails "nb.ipynb"
        (comfGeneratedContent comfRestoreFails 1 "nb.ipynb" "summary").2
        (comfGeneratedContent comfRestoreFails 1 "nb.ipynb" "summary").1 true sState0 :=
  ((notebook_reconciliation_fallback.2.2 comfRestoreFails 1 "nb.ipynb" "summary" sState0
    "orig" rfl).1 "no exact match" rfl)

/-- C9: advisory artifact enumeration — after the notebook executes with no
error, each oracle-enumerated filename that exists on disk is read and
committed to the branch as a created file, and each enumerated filename with
no file on disk is silently skipped: the block returns successfully with
exactly the existing files as created, records no error for the missing
ones, and performs no other write. -/
theorem notebook_artifact_enumeration (C : ComfCollab)
    (filename newContent : String) (s : SandboxState) (nc2 : String)
    (files : List String)
    (hex : C.executeNotebook newContent = .ok (nc2, none))
    (htj : C.textToJson (C.promptFunction (artifactListPrompt filename newContent)) =
      .ok files) :
    executeNotebookBlock C filename newContent s =
      ({ s with writes := s.writes ++
           (files.filter (fun f => (lookupDisk s.disk f).isSome)).map (fun f =>
             { filename := f, content := (lookupDisk s.disk f).getD "",
               message := "Adding " ++ dirname filename ++ "/" ++ f ++
                 " created by notebook" }) },
       .ok (nc2, files.filter (fun f => (lookupDisk s.disk f).isSome))) := by
  by_cases hdir : 0 < (dirname filename).length <;>
    simp [executeNotebookBlock, hex, htj, hdir, artifact_foldl,
      restore_environment, save_and_clear_environment]

/-- Concrete artifact-discovery collaborators: the oracle enumerates one file
that exists on disk and one that does not. -/
def comfArtifacts : ComfCollab :=
  { comfSample with textToJson := fun _ => .ok ["out.png", "missing.csv"] }

def sArtifacts : SandboxState :=
  { cwd := "/work/repo", env := [("PATH", "/usr/bin")],
    disk := [("out.png", "PNGBYTES")], writes := [] }

/-- Witness for C9: the existing `out.png` is committed with its bytes, the
absent `missing.csv` is skipped without an error. -/
theorem notebook_artifact_enumeration_witness :
    executeNotebookBlock comfArtifacts "plots/analysis.ipynb" "nb" sArtifacts =
      ({ sArtifacts with writes := sArtifacts.writes ++
           ((["out.png", "missing.csv"].filter
              (fun f => (lookupDisk sArtifacts.disk f).isSome)).map (fun f =>
             { filename := f, content := (lookupDisk sArtifacts.disk f).getD "",
               message := "Adding " ++ dirname "plots/analysis.ipynb" ++ "/" ++ f ++
                 " created by notebook" })) },
       .ok ("nb", ["out.png", "missing.csv"].filter
         (fun f => (lookupDisk sArtifacts.disk f).isSome))) :=
  notebook_artifact_enumeration comfArtifacts "plots/analysis.ipynb" "nb" sArtifacts
    "nb" ["out.png", "missing.csv"] rfl rfl

end GitBob
